import Mathlib

/-!
Verification of the ghstats2 core: the Parquet-backed statistics store
(`src/ghstats2/storage.py`), the GitHub traffic client
(`src/ghstats2/github_client.py`) and the per-repository collector
(`src/ghstats2/collector.py`).

Modelling conventions:
* Calendar dates are represented by their ISO-8601 `"YYYY-MM-DD"` strings.
  On valid ISO date strings, lexicographic string order coincides with
  calendar order, so polars' comparisons and sorts on `pl.Date` columns are
  modelled by `String` comparisons.
* A polars `DataFrame` over the fixed 10-column schema is a list of typed
  rows together with its column names.
* The Parquet file on disk is `Option DataFrame` (`none` = no file yet);
  `write` replaces the file content wholesale.
-/

namespace GhStats

/-! ### storage.py: schema and rows -/

/-- The 10 column names of `STATS_SCHEMA` (storage.py lines 9-20), in order. -/
def schemaCols : List String :=
  ["date", "repo_owner", "repo_name", "clones_total", "clones_unique",
   "views_total", "views_unique", "forks_count", "stars_count", "collected_at"]

/-- One row of the stats dataset, mirroring `STATS_SCHEMA`: the `date` column
(`pl.Date`, modelled as an ISO string), two string key columns, six nullable
integer metric columns, and the `collected_at` string column. -/
structure Row where
  date : String
  repo_owner : String
  repo_name : String
  clones_total : Option Int
  clones_unique : Option Int
  views_total : Option Int
  views_unique : Option Int
  forks_count : Option Int
  stars_count : Option Int
  collected_at : String
deriving DecidableEq, Repr

/-- A polars DataFrame over the stats schema: column names plus typed rows. -/
structure DataFrame where
  columns : List String
  rows : List Row
deriving DecidableEq, Repr

/-! ### models.py: TrafficRecord -/

/-- `TrafficRecord` (models.py lines 7-52): a single day's traffic data for one
repository.  The six metric fields are nullable; `collected_at` is an ISO
timestamp string. -/
structure TrafficRecord where
  record_date : String
  repo_owner : String
  repo_name : String
  clones_total : Option Int
  clones_unique : Option Int
  views_total : Option Int
  views_unique : Option Int
  forks_count : Option Int
  stars_count : Option Int
  collected_at : String
deriving DecidableEq, Repr

/-- `TrafficRecord.to_dict` (models.py lines 35-52): the row handed to the
DataFrame constructor, with `record_date` under the `date` column. -/
def TrafficRecord.to_dict (r : TrafficRecord) : Row :=
  ⟨r.record_date, r.repo_owner, r.repo_name, r.clones_total, r.clones_unique,
   r.views_total, r.views_unique, r.forks_count, r.stars_count, r.collected_at⟩

/-! ### storage.py: StatsStorage -/

/-- `StatsStorage.read` (storage.py lines 41-50): return the stored DataFrame,
or an empty DataFrame with the fixed schema when no file exists.  Never fails
on a missing file. -/
def read (file : Option DataFrame) : DataFrame :=
  match file with
  | none => ⟨schemaCols, []⟩
  | some df => df

/-- `StatsStorage.write` (storage.py lines 52-59): persist the full DataFrame,
replacing the file content wholesale (the new file state). -/
def write (df : DataFrame) : Option DataFrame :=
  some df

/-- Equality on the composite key columns `["date", "repo_owner", "repo_name"]`
(storage.py line 88), the join condition of the anti-join. -/
def keyMatches (r s : Row) : Bool :=
  r.date == s.date && r.repo_owner == s.repo_owner && r.repo_name == s.repo_name

/-- The `(date, repo_owner, repo_name)` composite key of a row. -/
def rowKey (r : Row) : String × String × String :=
  (r.date, r.repo_owner, r.repo_name)

/-- The ascending sort order of `sort(["repo_owner", "repo_name", "date"])`
(storage.py line 99): lexicographic on (owner, name, date). -/
def rowLE (a b : Row) : Prop :=
  a.repo_owner < b.repo_owner ∨
    (a.repo_owner = b.repo_owner ∧
      (a.repo_name < b.repo_name ∨
        (a.repo_name = b.repo_name ∧ a.date ≤ b.date)))

instance : DecidableRel rowLE := fun a b => by
  unfold rowLE
  infer_instance

instance : IsTotal Row rowLE := by
  constructor
  intro a b
  unfold rowLE
  rcases lt_trichotomy a.repo_owner b.repo_owner with h | h | h
  · exact Or.inl (Or.inl h)
  · rcases lt_trichotomy a.repo_name b.repo_name with h2 | h2 | h2
    · exact Or.inl (Or.inr ⟨h, Or.inl h2⟩)
    · rcases le_total a.date b.date with h3 | h3
      · exact Or.inl (Or.inr ⟨h, Or.inr ⟨h2, h3⟩⟩)
      · exact Or.inr (Or.inr ⟨h.symm, Or.inr ⟨h2.symm, h3⟩⟩)
    · exact Or.inr (Or.inr ⟨h.symm, Or.inl h2⟩)
  · exact Or.inr (Or.inl h)

instance : IsTrans Row rowLE := by
  constructor
  intro a b c hab hbc
  unfold rowLE at *
  rcases hab with h1 | ⟨e1, h1⟩
  · rcases hbc with h2 | ⟨e2, _⟩
    · exact Or.inl (h1.trans h2)
    · exact Or.inl (e2 ▸ h1)
  · rcases hbc with h2 | ⟨e2, h2⟩
    · exact Or.inl (e1 ▸ h2)
    · refine Or.inr ⟨e1.trans e2, ?_⟩
      rcases h1 with h1 | ⟨f1, h1⟩
      · rcases h2 with h2 | ⟨f2, _⟩
        · exact Or.inl (h1.trans h2)
        · exact Or.inl (f2 ▸ h1)
      · rcases h2 with h2 | ⟨f2, h2⟩
        · exact Or.inl (f1 ▸ h2)
        · exact Or.inr ⟨f1.trans f2, h1.trans h2⟩

/-- polars `.sort(["repo_owner", "repo_name", "date"])`, modelled by insertion
sort with respect to `rowLE`. -/
def sortRows (rows : List Row) : List Row :=
  List.insertionSort rowLE rows

/-- `StatsStorage.upsert` (storage.py lines 61-103): merge new records into the
stored dataset.  Empty batch: no-op returning 0.  Empty store: the batch
becomes the dataset.  Otherwise anti-join the existing rows against the batch
keys, append the batch, sort by (owner, name, date), persist, and return the
batch size.  Result: (new file state, return value). -/
def upsert (file : Option DataFrame) (new_records : List TrafficRecord) :
    Option DataFrame × Nat :=
  if new_records.isEmpty then (file, 0)
  else
    let new_df : DataFrame := ⟨schemaCols, new_records.map TrafficRecord.to_dict⟩
    let existing_df := read file
    if existing_df.rows.isEmpty then (write new_df, new_records.length)
    else
      let merged_rows :=
        sortRows
          ((existing_df.rows.filter
              (fun r => !(new_df.rows.any (fun s => keyMatches r s)))) ++ new_df.rows)
      (write ⟨existing_df.columns, merged_rows⟩, new_records.length)

/-- `if repo_name: df = df.filter(pl.col("repo_name") == repo_name)`
(storage.py lines 126-127).  The filter applies only when the argument is
truthy: `None` and `""` both skip it. -/
def nameFilter (repo_name : Option String) (rows : List Row) : List Row :=
  match repo_name with
  | some n => if n = "" then rows else rows.filter (fun r => r.repo_name == n)
  | none => rows

/-- `if start_date: df = df.filter(pl.col("date") >= ...)` (storage.py lines
129-130), inclusive lower bound. -/
def startFilter (start_date : Option String) (rows : List Row) : List Row :=
  match start_date with
  | some s => if s = "" then rows else rows.filter (fun r => decide (s ≤ r.date))
  | none => rows

/-- `if end_date: df = df.filter(pl.col("date") <= ...)` (storage.py lines
132-133), inclusive upper bound. -/
def endFilter (end_date : Option String) (rows : List Row) : List Row :=
  match end_date with
  | some e => if e = "" then rows else rows.filter (fun r => decide (r.date ≤ e))
  | none => rows

/-- `StatsStorage.get_stats` (storage.py lines 105-135): optional filters are
applied only when truthy (Python `if repo_name:` treats `None` and `""` alike),
dates are compared inclusively, and the result is sorted by
(owner, name, date).  An empty store short-circuits to the empty DataFrame. -/
def get_stats (file : Option DataFrame)
    (repo_name start_date end_date : Option String) : DataFrame :=
  let df := read file
  if df.rows.isEmpty then df
  else
    ⟨df.columns, sortRows (endFilter end_date (startFilter start_date (nameFilter repo_name df.rows)))⟩

/-! ### github_client.py: errors and the request executor -/

/-- A wall-clock UTC timestamp (year-month-day hour:minute:second), the model
of a `datetime` with `tz=UTC`. -/
structure UTCTime where
  year : Nat
  month : Nat
  day : Nat
  hour : Nat
  minute : Nat
  second : Nat
deriving DecidableEq, Repr

/-- `datetime.fromtimestamp(ts, tz=UTC)` for a non-negative Unix epoch second
count: civil date via the standard era/cycle computation, plus time of day. -/
def epochToUTC (ts : Nat) : UTCTime :=
  let days := ts / 86400
  let secs := ts % 86400
  let z := days + 719468
  let era := z / 146097
  let doe := z % 146097
  let yoe := (doe - doe / 1460 + doe / 36524 - doe / 146096) / 365
  let doy := doe - (365 * yoe + yoe / 4 - yoe / 100)
  let mp := (5 * doy + 2) / 153
  let d := doy - (153 * mp + 2) / 5 + 1
  let m := if mp < 10 then mp + 3 else mp - 9
  let y := yoe + era * 400 + (if m ≤ 2 then 1 else 0)
  ⟨y, m, d, secs / 3600, secs % 3600 / 60, secs % 60⟩

/-- Left-pad the decimal representation of `n` with zeros to `width` digits. -/
def padZeros (width n : Nat) : String :=
  let s := toString n
  String.mk (List.replicate (width - s.length) '0') ++ s

/-- `datetime.isoformat()` of a UTC-aware datetime:
`"YYYY-MM-DDTHH:MM:SS+00:00"`. -/
def UTCTime.isoformat (t : UTCTime) : String :=
  padZeros 4 t.year ++ "-" ++ padZeros 2 t.month ++ "-" ++ padZeros 2 t.day ++
    "T" ++ padZeros 2 t.hour ++ ":" ++ padZeros 2 t.minute ++ ":" ++
    padZeros 2 t.second ++ "+00:00"

/-- The `GitHubAPIError` exception family (github_client.py lines 12-35):
`RateLimitError` (with its `reset_at` datetime), `AuthenticationError`,
`NotFoundError`, and the generic base `GitHubAPIError`. -/
inductive GHError where
  | rateLimitError (message : String) (reset_at : UTCTime)
  | authenticationError (message : String)
  | notFoundError (message : String)
  | apiError (message : String)
deriving DecidableEq, Repr

/-- An exception escaping a client method: either Python's built-in
`RuntimeError` (not part of the `GitHubAPIError` family) or a `GHError`. -/
inductive PyError where
  | runtimeError (message : String)
  | ghError (e : GHError)
deriving DecidableEq, Repr

/-- Whether a raised exception is an instance of the `GitHubAPIError` family
(`RuntimeError` is not: it derives from Python's `Exception` directly). -/
def PyError.isGitHubAPIError : PyError → Bool
  | .ghError _ => true
  | .runtimeError _ => false

/-- One HTTP response as seen by `_request`: status code, headers, body text,
and the parsed JSON payload (kept opaque as a token string). -/
structure HttpResponse where
  status : Nat
  headers : List (String × String)
  text : String
  json : String
deriving DecidableEq, Repr

/-- `response.headers.get(key, dflt)`: first matching header value, or the
default. -/
def headersGet (headers : List (String × String)) (key dflt : String) : String :=
  match headers.find? (fun kv => kv.1 == key) with
  | some kv => kv.2
  | none => dflt

/-- Python `int(...)` on a decimal string (the only header values the API
sends): fold the digits.  A non-decimal header would raise in Python; that
path is outside the modelled behaviour. -/
def strToNat (s : String) : Nat :=
  s.toList.foldl (fun acc ch => acc * 10 + (ch.toNat - 48)) 0

/-- Observable outcome of a `_request` call: the returned payload or the
raised exception, the number of HTTP requests issued, and the sequence of
`asyncio.sleep` durations (in seconds) in order. -/
structure RequestOutcome where
  result : Except PyError String
  requestsIssued : Nat
  sleeps : List Nat
deriving Repr

/-- The `for attempt in range(max_retries)` loop of `_request`
(github_client.py lines 105-144).  `env n` is the outcome of the `n`-th HTTP
request the client would issue: `.error msg` for a network-level
`httpx.RequestError`, `.ok resp` for a response.  `fuel` is the number of loop
iterations left; falling off the loop raises the last observed error (or the
generic fallback).  The `X-RateLimit-Reset` header is parsed with `int(...)`,
modelled on decimal header values (the only ones the API sends). -/
def requestLoop (env : Nat → Except String HttpResponse) (path : String) :
    Nat → Nat → Option GHError → RequestOutcome
  | 0, _, lastError =>
    ⟨.error (.ghError (match lastError with
      | some e => e
      | none => .apiError "Request failed after retries")), 0, []⟩
  | fuel + 1, attempt, _ =>
    match env attempt with
    | .error msg =>
      let rest := requestLoop env path fuel (attempt + 1)
        (some (.apiError ("Request failed: " ++ msg)))
      ⟨rest.result, rest.requestsIssued + 1, 2 ^ attempt :: rest.sleeps⟩
    | .ok resp =>
      if resp.status == 200 then ⟨.ok resp.json, 1, []⟩
      else if resp.status == 401 then
        ⟨.error (.ghError (.authenticationError "Invalid or expired token")), 1, []⟩
      else if resp.status == 403 then
        if headersGet resp.headers "X-RateLimit-Remaining" "1" == "0" then
          let reset_timestamp := strToNat (headersGet resp.headers "X-RateLimit-Reset" "0")
          let reset_at := epochToUTC reset_timestamp
          ⟨.error (.ghError (.rateLimitError
            ("Rate limit exceeded. Resets at " ++ reset_at.isoformat) reset_at)), 1, []⟩
        else
          ⟨.error (.ghError (.authenticationError
            "Access forbidden - check token permissions")), 1, []⟩
      else if resp.status == 404 then
        ⟨.error (.ghError (.notFoundError
          ("Repository not found or no access: " ++ path))), 1, []⟩
      else if 500 ≤ resp.status then
        let rest := requestLoop env path fuel (attempt + 1)
          (some (.apiError ("Server error " ++ toString resp.status ++ ": " ++ resp.text)))
        ⟨rest.result, rest.requestsIssued + 1, 2 ^ attempt :: rest.sleeps⟩
      else
        ⟨.error (.ghError (.apiError
          ("API error " ++ toString resp.status ++ ": " ++ resp.text))), 1, []⟩

/-- `GitHubTrafficClient._request` (github_client.py lines 78-144).
`clientOpen` is whether the async context manager has been entered
(`self._client is not None`); when it has not, a `RuntimeError` is raised
before any request is issued. -/
def _request (clientOpen : Bool) (env : Nat → Except String HttpResponse)
    (path : String) (max_retries : Nat) : RequestOutcome :=
  if clientOpen then requestLoop env path max_retries 0 none
  else ⟨.error (.runtimeError "Client not initialized. Use async context manager."), 0, []⟩

/-- `GitHubTrafficClient.get_views` request behaviour (github_client.py lines
146-161): one `_request` with the default `max_retries = 3`.  The mapping of
the JSON payload into `TrafficData` happens only after `_request` returns
successfully and does not alter the outcome's error or request count. -/
def get_views (clientOpen : Bool) (env : Nat → Except String HttpResponse)
    (owner repo : String) : RequestOutcome :=
  _request clientOpen env ("/repos/" ++ owner ++ "/" ++ repo ++ "/traffic/views") 3

/-- `GitHubTrafficClient.get_clones` request behaviour (github_client.py lines
163-178). -/
def get_clones (clientOpen : Bool) (env : Nat → Except String HttpResponse)
    (owner repo : String) : RequestOutcome :=
  _request clientOpen env ("/repos/" ++ owner ++ "/" ++ repo ++ "/traffic/clones") 3

/-- `GitHubTrafficClient.get_repo_stats` request behaviour (github_client.py
lines 180-196). -/
def get_repo_stats (clientOpen : Bool) (env : Nat → Except String HttpResponse)
    (owner repo : String) : RequestOutcome :=
  _request clientOpen env ("/repos/" ++ owner ++ "/" ++ repo) 3

/-- `GitHubTrafficClient.get_releases` request behaviour (github_client.py
lines 198-224). -/
def get_releases (clientOpen : Bool) (env : Nat → Except String HttpResponse)
    (owner repo : String) (per_page : Nat) : RequestOutcome :=
  _request clientOpen env
    ("/repos/" ++ owner ++ "/" ++ repo ++ "/releases?per_page=" ++ toString per_page) 3

/-! ### collector.py: the per-repository record builder -/

/-- One per-day entry of a traffic response (`{"timestamp": ..., "count": ...,
"uniques": ...}`), with the dict-`get` defaults already applied. -/
structure TrafficItem where
  timestamp : String
  count : Int
  uniques : Int
deriving DecidableEq, Repr

/-- `TrafficData` (models.py lines 55-67). -/
structure TrafficData where
  count : Int
  uniques : Int
  items : List TrafficItem
deriving DecidableEq, Repr

/-- `RepoStats` (models.py lines 70-84). -/
structure RepoStats where
  forks_count : Int
  stargazers_count : Int
  watchers_count : Int
  open_issues_count : Int
deriving DecidableEq, Repr

/-- `date.fromisoformat(ts.split("T")[0])` (collector.py lines 44-45): the date
part of the timestamp, i.e. the characters before the first `'T'` (dates stay
ISO strings in this model). -/
def itemDate (item : TrafficItem) : String :=
  String.mk (item.timestamp.toList.takeWhile (fun ch => ch != 'T'))

/-- The `TrafficRecord(...)` built for a view day (collector.py lines 46-55):
view counts plus the repo-stats snapshot; clone fields left at `None`. -/
def viewRecord (owner name collected_at : String) (stats : RepoStats)
    (item : TrafficItem) : TrafficRecord :=
  ⟨itemDate item, owner, name, none, none, some item.count, some item.uniques,
   some stats.forks_count, some stats.stargazers_count, collected_at⟩

/-- The `TrafficRecord(...)` built for a clone-only day (collector.py lines
66-75): clone counts plus the repo-stats snapshot; view fields left at
`None`. -/
def cloneRecord (owner name collected_at : String) (stats : RepoStats)
    (item : TrafficItem) : TrafficRecord :=
  ⟨itemDate item, owner, name, some item.count, some item.uniques, none, none,
   some stats.forks_count, some stats.stargazers_count, collected_at⟩

/-- In-place mutation of an existing record's clone fields (collector.py lines
63-64). -/
def setCloneFields (r : TrafficRecord) (c u : Int) : TrafficRecord :=
  ⟨r.record_date, r.repo_owner, r.repo_name, some c, some u, r.views_total,
   r.views_unique, r.forks_count, r.stars_count, r.collected_at⟩

/-- Python dict assignment `d[k] = v` on an insertion-ordered dict, modelled
as an association list: replace in place if the key exists, else append. -/
def dictSet (m : List (String × TrafficRecord)) (k : String) (v : TrafficRecord) :
    List (String × TrafficRecord) :=
  if m.any (fun p => p.1 == k) then m.map (fun p => if p.1 == k then (k, v) else p)
  else m ++ [(k, v)]

/-- One iteration of the views loop (collector.py lines 43-55). -/
def viewStep (owner name collected_at : String) (stats : RepoStats)
    (m : List (String × TrafficRecord)) (item : TrafficItem) :
    List (String × TrafficRecord) :=
  dictSet m (itemDate item) (viewRecord owner name collected_at stats item)

/-- One iteration of the clones loop (collector.py lines 58-75): update the
matching entry's clone fields in place, or insert a clone-only record. -/
def cloneStep (owner name collected_at : String) (stats : RepoStats)
    (m : List (String × TrafficRecord)) (item : TrafficItem) :
    List (String × TrafficRecord) :=
  let d := itemDate item
  if m.any (fun p => p.1 == d) then
    m.map (fun p => if p.1 == d then (p.1, setCloneFields p.2 item.count item.uniques) else p)
  else m ++ [(d, cloneRecord owner name collected_at stats item)]

/-- `collect_repo_stats` (collector.py lines 16-83) given the outcomes of the
three jointly-awaited fetches.  `asyncio.gather` re-raises the first failure,
the surrounding `try` catches `GitHubAPIError` and returns the (still empty)
record list; otherwise the date→record mapping is built from the view days,
merged with the clone days, and its values are returned in insertion order. -/
def collect_repo_stats (views clones : Except GHError TrafficData)
    (stats : Except GHError RepoStats) (owner name collected_at : String) :
    List TrafficRecord :=
  match views, clones, stats with
  | .ok v, .ok c, .ok s =>
    let after_views := v.items.foldl (viewStep owner name collected_at s) []
    let after_clones := c.items.foldl (cloneStep owner name collected_at s) after_views
    after_clones.map (fun p => p.2)
  | _, _, _ => []

/-- The fetch environment of one repository in a `collect_all` run: the
outcomes of its three API calls plus its identity (collector.py lines
123-127). -/
structure RepoFetch where
  views : Except GHError TrafficData
  clones : Except GHError TrafficData
  stats : Except GHError RepoStats
  owner : String
  name : String
  collected_at : String

/-- The records one repository contributes to the batch. -/
def repoRecords (f : RepoFetch) : List TrafficRecord :=
  collect_repo_stats f.views f.clones f.stats f.owner f.name f.collected_at

/-- The `all_records` accumulation of `collect_all` (collector.py lines
121-127): per-repository record lists concatenated in batch order. -/
def collect_all_records (fs : List RepoFetch) : List TrafficRecord :=
  (fs.map repoRecords).flatten

/-- Some fetch of the repository raised (a member of the `GitHubAPIError`
family — the only errors the client's methods raise once the connection is
open). -/
def fetchFailed (f : RepoFetch) : Prop :=
  (∃ e, f.views = .error e) ∨ (∃ e, f.clones = .error e) ∨ (∃ e, f.stats = .error e)

/-- The predicate "row `r` satisfies every given filter" of `get_stats`:
repo name equal to the given name, `start_date ≤ date`, `date ≤ end_date`
(both bounds inclusive). -/
def matchesFilters (repo_name start_date end_date : Option String) (r : Row) : Bool :=
  (match repo_name with
   | some n => r.repo_name == n
   | none => true) &&
  (match start_date with
   | some s => decide (s ≤ r.date)
   | none => true) &&
  (match end_date with
   | some e => decide (r.date ≤ e)
   | none => true)

/-! ### Helper lemmas about the storage model -/

theorem keyMatches_iff_rowKey (r s : Row) :
    keyMatches r s = true ↔ rowKey r = rowKey s := by
  simp [keyMatches, rowKey, Bool.and_eq_true, Prod.ext_iff, and_assoc]

theorem sortRows_perm (l : List Row) : (sortRows l).Perm l :=
  List.perm_insertionSort rowLE l

theorem sortRows_sorted (l : List Row) : (sortRows l).Sorted rowLE :=
  List.sorted_insertionSort rowLE l

theorem upsert_nil (file : Option DataFrame) : upsert file [] = (file, 0) := rfl

theorem upsert_merge (df : DataFrame) (batch : List TrafficRecord)
    (hb : batch ≠ []) (hrows : df.rows ≠ []) :
    upsert (some df) batch =
      (some ⟨df.columns,
        sortRows
          ((df.rows.filter
            (fun r => !((batch.map TrafficRecord.to_dict).any (fun s => keyMatches r s))))
            ++ batch.map TrafficRecord.to_dict)⟩, batch.length) := by
  unfold upsert
  rw [if_neg (by simp [hb]), if_neg (by simp [read, hrows])]
  rfl

theorem sortRows_append_singleton_ne_nil (A : List Row) (x : Row) :
    sortRows (A ++ [x]) ≠ [] := by
  intro h
  have hperm := sortRows_perm (A ++ [x])
  rw [h] at hperm
  have := hperm.symm.eq_nil
  simp at this

theorem upsert_into_empty (file : Option DataFrame) (batch : List TrafficRecord)
    (hb : batch ≠ []) (h : (read file).rows = []) :
    upsert file batch =
      (some ⟨schemaCols, batch.map TrafficRecord.to_dict⟩, batch.length) := by
  unfold upsert
  rw [if_neg (by simp [hb]), if_pos (by simp [h])]
  rfl

theorem upsert_single_state (file : Option DataFrame) (r : TrafficRecord) :
    ∃ df : DataFrame, (upsert file [r]).1 = some df ∧ df.rows ≠ [] := by
  by_cases h : (read file).rows = []
  · exact ⟨_, by rw [upsert_into_empty file [r] (by simp) h], by simp⟩
  · rcases file with _ | df
    · simp [read] at h
    · exact ⟨_, by rw [upsert_merge df [r] (by simp) (by simpa [read] using h)],
        sortRows_append_singleton_ne_nil _ _⟩

/-! ### Claim theorems: storage -/

/-- Claim C1: for a non-empty batch with pairwise-distinct keys and a non-empty
existing dataset, `upsert` persists exactly the existing rows whose key does
not occur in the batch plus all batch rows, sorted ascending by
(repo_owner, repo_name, date); and upserting the same key twice leaves exactly
one row for that key, carrying the second call's values. -/
theorem c1_upsert_merge_semantics :
    (∀ (fileCols : List String) (existing : List Row) (batch : List TrafficRecord),
      batch ≠ [] → existing ≠ [] →
      (batch.map (fun r => rowKey r.to_dict)).Nodup →
      ∃ df : DataFrame,
        (upsert (some ⟨fileCols, existing⟩) batch).1 = some df ∧
        df.rows.Perm
          ((existing.filter
            (fun r => !((batch.map TrafficRecord.to_dict).any (fun s => keyMatches r s))))
            ++ batch.map TrafficRecord.to_dict) ∧
        df.rows.Sorted rowLE) ∧
    (∀ (file : Option DataFrame) (r1 r2 : TrafficRecord),
      rowKey r1.to_dict = rowKey r2.to_dict → r1 ≠ r2 →
      ∃ df : DataFrame,
        (upsert (upsert file [r1]).1 [r2]).1 = some df ∧
        df.rows.filter (fun row => decide (rowKey row = rowKey r2.to_dict)) =
          [r2.to_dict]) := by
  constructor
  · intro fileCols existing batch hb he _
    refine ⟨_, by rw [upsert_merge ⟨fileCols, existing⟩ batch hb he], ?_, ?_⟩
    · exact sortRows_perm _
    · exact sortRows_sorted _
  · intro file r1 r2 _ _
    obtain ⟨df1, hdf1, hne1⟩ := upsert_single_state file r1
    rw [hdf1]
    refine ⟨_, by rw [upsert_merge df1 [r2] (by simp) hne1], ?_⟩
    have hperm := (sortRows_perm
      ((df1.rows.filter
        (fun r' => !(([r2].map TrafficRecord.to_dict).any (fun s => keyMatches r' s))))
        ++ [r2].map TrafficRecord.to_dict)).filter
      (fun row => decide (rowKey row = rowKey r2.to_dict))
    rw [List.filter_append] at hperm
    have hA : (df1.rows.filter
        (fun r' => !(([r2].map TrafficRecord.to_dict).any (fun s => keyMatches r' s)))).filter
        (fun row => decide (rowKey row = rowKey r2.to_dict)) = [] := by
      rw [List.filter_eq_nil_iff]
      intro a ha
      rw [List.mem_filter] at ha
      have hkm : keyMatches a r2.to_dict = false := by
        have := ha.2
        simp only [List.map_cons, List.map_nil, List.any_cons, List.any_nil,
          Bool.or_false, Bool.not_eq_true'] at this
        exact this
      simp only [decide_eq_true_eq]
      intro hk
      rw [← keyMatches_iff_rowKey a r2.to_dict] at hk
      rw [hkm] at hk
      exact Bool.false_ne_true hk
    have hB : (([r2].map TrafficRecord.to_dict).filter
        (fun row => decide (rowKey row = rowKey r2.to_dict))) = [r2.to_dict] := by
      simp
    rw [hA, hB, List.nil_append] at hperm
    rw [List.perm_singleton] at hperm
    exact hperm

/-- Claim C1 witness: a concrete instantiation of both conjuncts. -/
theorem c1_upsert_merge_semantics_witness :
    (∃ df : DataFrame,
      (upsert (some ⟨schemaCols,
        [⟨"2024-01-01", "o", "a", none, none, some 1, some 1, some 0, some 0, "t0"⟩]⟩)
        [⟨"2024-01-02", "o", "a", none, none, some 2, some 2, some 0, some 0, "t1"⟩]).1 =
          some df ∧
      df.rows.Perm
        (([(⟨"2024-01-01", "o", "a", none, none, some 1, some 1, some 0, some 0, "t0"⟩ : Row)].filter
          (fun r => !((([(⟨"2024-01-02", "o", "a", none, none, some 2, some 2, some 0, some 0,
            "t1"⟩ : TrafficRecord)].map TrafficRecord.to_dict)).any (fun s => keyMatches r s))))
          ++ [(⟨"2024-01-02", "o", "a", none, none, some 2, some 2, some 0, some 0,
            "t1"⟩ : TrafficRecord)].map TrafficRecord.to_dict) ∧
      df.rows.Sorted rowLE) ∧
    (∃ df : DataFrame,
      (upsert (upsert none
        [⟨"2024-01-01", "o", "a", none, none, some 100, some 50, some 0, some 0, "t0"⟩]).1
        [⟨"2024-01-01", "o", "a", none, none, some 200, some 80, some 0, some 0, "t1"⟩]).1 =
          some df ∧
      df.rows.filter (fun row => decide (rowKey row =
        rowKey (TrafficRecord.to_dict
          ⟨"2024-01-01", "o", "a", none, none, some 200, some 80, some 0, some 0, "t1"⟩))) =
        [TrafficRecord.to_dict
          ⟨"2024-01-01", "o", "a", none, none, some 200, some 80, some 0, some 0, "t1"⟩]) :=
  ⟨c1_upsert_merge_semantics.1 schemaCols _ _ (by decide) (by decide) (by decide),
   c1_upsert_merge_semantics.2 none _ _ (by decide) (by decide)⟩

/-- Claim C8: `upsert([])` returns 0 and leaves the stored dataset unchanged;
a non-empty batch with pairwise-distinct keys returns the batch size. -/
theorem c8_upsert_counts :
    (∀ file : Option DataFrame, upsert file [] = (file, 0)) ∧
    (∀ (file : Option DataFrame) (batch : List TrafficRecord),
      batch ≠ [] →
      (batch.map (fun r => rowKey r.to_dict)).Nodup →
      (upsert file batch).2 = batch.length) := by
  refine ⟨fun file => upsert_nil file, ?_⟩
  intro file batch hb _
  by_cases h : (read file).rows = []
  · rw [upsert_into_empty file batch hb h]
  · rcases file with _ | df
    · simp [read] at h
    · rw [upsert_merge df batch hb (by simpa [read] using h)]

/-- Claim C8 witness: concrete instantiation of both conjuncts. -/
theorem c8_upsert_counts_witness :
    upsert none [] = (none, 0) ∧
    (upsert none
      [⟨"2024-01-01", "o", "a", none, none, some 1, some 1, some 0, some 0, "t0"⟩,
       ⟨"2024-01-02", "o", "a", none, none, some 2, some 2, some 0, some 0, "t0"⟩]).2 = 2 :=
  ⟨c8_upsert_counts.1 none,
   c8_upsert_counts.2 none _ (by decide) (by decide)⟩

theorem filter_filter_filter {α : Type} (p q t : α → Bool) (l : List α) :
    ((l.filter p).filter q).filter t = l.filter (fun a => p a && q a && t a) := by
  rw [List.filter_filter, List.filter_filter]
  exact List.filter_congr
    (fun a _ => by cases hp : p a <;> cases hq : q a <;> cases ht : t a <;> simp [hp, hq, ht])

theorem nameFilter_eq (o : Option String) (rows : List Row) (h : o ≠ some "") :
    nameFilter o rows = rows.filter (fun r =>
      match o with
      | some n => r.repo_name == n
      | none => true) := by
  rcases o with _ | n
  · simp [nameFilter]
  · have hne : n ≠ "" := fun he => h (by rw [he])
    simp [nameFilter, hne]

theorem startFilter_eq (o : Option String) (rows : List Row) (h : o ≠ some "") :
    startFilter o rows = rows.filter (fun r =>
      match o with
      | some s => decide (s ≤ r.date)
      | none => true) := by
  rcases o with _ | s
  · simp [startFilter]
  · have hne : s ≠ "" := fun he => h (by rw [he])
    simp [startFilter, hne]

theorem endFilter_eq (o : Option String) (rows : List Row) (h : o ≠ some "") :
    endFilter o rows = rows.filter (fun r =>
      match o with
      | some e => decide (r.date ≤ e)
      | none => true) := by
  rcases o with _ | e
  · simp [endFilter]
  · have hne : e ≠ "" := fun he => h (by rw [he])
    simp [endFilter, hne]

/-- Claim C6: `get_stats` returns exactly the stored rows satisfying all given
filters (name equality, inclusive date bounds), sorted by
(repo_owner, repo_name, date); it returns an empty dataset rather than failing
when nothing matches, and `start_date = D` excludes every row with date < D.
The hypotheses exclude the degenerate empty-string filter values, which Python
truthiness treats as absent. -/
theorem c6_get_stats_filters :
    ∀ (file : Option DataFrame) (oname ostart oend : Option String),
      oname ≠ some "" → ostart ≠ some "" → oend ≠ some "" →
      (get_stats file oname ostart oend).rows.Perm
          ((read file).rows.filter (matchesFilters oname ostart oend)) ∧
        (get_stats file oname ostart oend).rows.Sorted rowLE ∧
        ∀ r ∈ (get_stats file oname ostart oend).rows,
          ∀ D, ostart = some D → ¬(r.date < D) := by
  intro file oname ostart oend hn hs he
  unfold get_stats
  by_cases hrows : (read file).rows.isEmpty
  · rw [if_pos hrows]
    rw [List.isEmpty_iff] at hrows
    rw [hrows]
    exact ⟨List.Perm.refl _, List.sorted_nil, by simp⟩
  · rw [if_neg hrows]
    have hX : endFilter oend (startFilter ostart (nameFilter oname (read file).rows)) =
        (read file).rows.filter (matchesFilters oname ostart oend) := by
      rw [nameFilter_eq oname _ hn, startFilter_eq ostart _ hs, endFilter_eq oend _ he,
        filter_filter_filter]
      exact List.filter_congr (fun a _ => by rw [matchesFilters.eq_def])
    dsimp only
    rw [hX]
    refine ⟨sortRows_perm _, sortRows_sorted _, ?_⟩
    intro r hr D hD
    have hr2 := ((sortRows_perm _).mem_iff).mp hr
    rw [List.mem_filter] at hr2
    have hm := hr2.2
    rw [hD] at hm
    simp only [matchesFilters, Bool.and_eq_true, decide_eq_true_eq] at hm
    exact not_lt.mpr hm.1.2

/-- Claim C6 witness: a concrete two-row store, filtered by name and start
date. -/
theorem c6_get_stats_filters_witness :
    (get_stats (some ⟨schemaCols,
        [⟨"2024-01-01", "o", "a", none, none, some 1, some 1, some 0, some 0, "t0"⟩,
         ⟨"2024-01-02", "o", "a", none, none, some 2, some 2, some 0, some 0, "t0"⟩]⟩)
        (some "a") (some "2024-01-02") none).rows.Perm
      ((read (some ⟨schemaCols,
        [⟨"2024-01-01", "o", "a", none, none, some 1, some 1, some 0, some 0, "t0"⟩,
         ⟨"2024-01-02", "o", "a", none, none, some 2, some 2, some 0, some 0, "t0"⟩]⟩)).rows.filter
        (matchesFilters (some "a") (some "2024-01-02") none)) ∧
    (get_stats (some ⟨schemaCols,
        [⟨"2024-01-01", "o", "a", none, none, some 1, some 1, some 0, some 0, "t0"⟩,
         ⟨"2024-01-02", "o", "a", none, none, some 2, some 2, some 0, some 0, "t0"⟩]⟩)
        (some "a") (some "2024-01-02") none).rows.Sorted rowLE ∧
    ∀ r ∈ (get_stats (some ⟨schemaCols,
        [⟨"2024-01-01", "o", "a", none, none, some 1, some 1, some 0, some 0, "t0"⟩,
         ⟨"2024-01-02", "o", "a", none, none, some 2, some 2, some 0, some 0, "t0"⟩]⟩)
        (some "a") (some "2024-01-02") none).rows,
      ∀ D, (some "2024-01-02" : Option String) = some D → ¬(r.date < D) :=
  c6_get_stats_filters _ (some "a") (some "2024-01-02") none
    (by decide) (by decide) (by decide)

/-- Claim C9: `read` on a store whose backing file does not exist returns an
empty typed dataset exposing all 10 schema columns, and never fails. -/
theorem c9_read_missing_file :
    (read none).columns =
      ["date", "repo_owner", "repo_name", "clones_total", "clones_unique",
       "views_total", "views_unique", "forks_count", "stars_count", "collected_at"] ∧
    (read none).columns.length = 10 ∧
    (read none).rows = [] :=
  ⟨rfl, rfl, rfl⟩

/-! ### Helper lemmas about the request executor -/

theorem request_open (env : Nat → Except String HttpResponse) (path : String) (n : Nat) :
    _request true env path n = requestLoop env path n 0 none := rfl

theorem request_closed (env : Nat → Except String HttpResponse) (path : String) (n : Nat) :
    _request false env path n =
      ⟨.error (.runtimeError "Client not initialized. Use async context manager."), 0, []⟩ := rfl

/-! ### Claim theorems: client -/

/-- Claim C2: the client retries only on HTTP 5xx responses and network-level
failures, up to the default 3 attempts, sleeping 2^attempt units between
attempts; after exhausting the attempts it raises the last observed error; and
500, 500, 200 succeeds with the 200 payload after exactly 3 requests. -/
theorem c2_retry_policy :
    (∀ (env : Nat → Except String HttpResponse) (path : String) (r : HttpResponse),
      env 0 = .ok r → r.status ≠ 200 → r.status < 500 →
      (_request true env path 3).requestsIssued = 1 ∧
      ∃ e, (_request true env path 3).result = .error e) ∧
    (∀ (env : Nat → Except String HttpResponse) (path : String) (r0 r1 r2 : HttpResponse),
      env 0 = .ok r0 → env 1 = .ok r1 → env 2 = .ok r2 →
      500 ≤ r0.status → 500 ≤ r1.status → 500 ≤ r2.status →
      _request true env path 3 =
        ⟨.error (.ghError (.apiError
          ("Server error " ++ toString r2.status ++ ": " ++ r2.text))), 3, [1, 2, 4]⟩) ∧
    (∀ (env : Nat → Except String HttpResponse) (path : String) (m0 m1 m2 : String),
      env 0 = .error m0 → env 1 = .error m1 → env 2 = .error m2 →
      _request true env path 3 =
        ⟨.error (.ghError (.apiError ("Request failed: " ++ m2))), 3, [1, 2, 4]⟩) ∧
    (∀ (env : Nat → Except String HttpResponse) (path : String) (r0 r1 r2 : HttpResponse),
      env 0 = .ok r0 → env 1 = .ok r1 → env 2 = .ok r2 →
      500 ≤ r0.status → 500 ≤ r1.status → r2.status = 200 →
      _request true env path 3 = ⟨.ok r2.json, 3, [1, 2]⟩) := by
  refine ⟨?_, ?_, ?_, ?_⟩
  · intro env path r h0 h200 h500
    rw [request_open]
    have e200 : (r.status == 200) = false := by simp [h200]
    by_cases h401 : r.status = 401
    · simp [requestLoop, h0, e200, h401]
    · have e401 : (r.status == 401) = false := by simp [h401]
      by_cases h403 : r.status = 403
      · cases hdr : (headersGet r.headers "X-RateLimit-Remaining" "1" == "0") <;>
          simp [requestLoop, h0, e200, e401, h403, hdr]
      · have e403 : (r.status == 403) = false := by simp [h403]
        by_cases h404 : r.status = 404
        · simp [requestLoop, h0, e200, e401, e403, h404]
        · have e404 : (r.status == 404) = false := by simp [h404]
          have e500 : ¬(500 ≤ r.status) := by omega
          simp [requestLoop, h0, e200, e401, e403, e404, e500]
  · intro env path r0 r1 r2 h0 h1 h2 s0 s1 s2
    rw [request_open]
    have e0 : (r0.status == 200) = false ∧ (r0.status == 401) = false ∧
        (r0.status == 403) = false ∧ (r0.status == 404) = false := by
      refine ⟨?_, ?_, ?_, ?_⟩ <;> simp <;> omega
    have e1 : (r1.status == 200) = false ∧ (r1.status == 401) = false ∧
        (r1.status == 403) = false ∧ (r1.status == 404) = false := by
      refine ⟨?_, ?_, ?_, ?_⟩ <;> simp <;> omega
    have e2 : (r2.status == 200) = false ∧ (r2.status == 401) = false ∧
        (r2.status == 403) = false ∧ (r2.status == 404) = false := by
      refine ⟨?_, ?_, ?_, ?_⟩ <;> simp <;> omega
    simp [requestLoop, h0, h1, h2, e0.1, e0.2.1, e0.2.2.1, e0.2.2.2, e1.1, e1.2.1,
      e1.2.2.1, e1.2.2.2, e2.1, e2.2.1, e2.2.2.1, e2.2.2.2, s0, s1, s2]
  · intro env path m0 m1 m2 h0 h1 h2
    rw [request_open]
    simp [requestLoop, h0, h1, h2]
  · intro env path r0 r1 r2 h0 h1 h2 s0 s1 s2
    rw [request_open]
    have e0 : (r0.status == 200) = false ∧ (r0.status == 401) = false ∧
        (r0.status == 403) = false ∧ (r0.status == 404) = false := by
      refine ⟨?_, ?_, ?_, ?_⟩ <;> simp <;> omega
    have e1 : (r1.status == 200) = false ∧ (r1.status == 401) = false ∧
        (r1.status == 403) = false ∧ (r1.status == 404) = false := by
      refine ⟨?_, ?_, ?_, ?_⟩ <;> simp <;> omega
    have e2 : (r2.status == 200) = true := by simp [s2]
    simp [requestLoop, h0, h1, h2, e0.1, e0.2.1, e0.2.2.1, e0.2.2.2, e1.1, e1.2.1,
      e1.2.2.1, e1.2.2.2, e2, s0, s1]

/-- Claim C2 witness: a concrete environment answering 500, 500, then 200. -/
theorem c2_retry_policy_witness :
    _request true
      (fun n => if n = 0 then .ok ⟨500, [], "boom", "p0"⟩
        else if n = 1 then .ok ⟨500, [], "boom", "p1"⟩
        else .ok ⟨200, [], "", "payload"⟩)
      "/repos/o/a/traffic/views" 3 = ⟨.ok "payload", 3, [1, 2]⟩ :=
  c2_retry_policy.2.2.2
    (fun n => if n = 0 then .ok ⟨500, [], "boom", "p0"⟩
      else if n = 1 then .ok ⟨500, [], "boom", "p1"⟩
      else .ok ⟨200, [], "", "payload"⟩)
    "/repos/o/a/traffic/views" ⟨500, [], "boom", "p0"⟩ ⟨500, [], "boom", "p1"⟩
    ⟨200, [], "", "payload"⟩ rfl rfl rfl (by decide) (by decide) rfl

/-- Claim C3: non-retryable statuses raise on the first request: 401 raises an
authentication error; 403 with rate-limit-remaining "0" raises a rate-limit
error whose reset time is the Unix-epoch reset header converted to UTC
(1704067200 ↦ 2024-01-01T00:00:00); 403 otherwise raises an authentication
error; 404 raises a not-found error — each after exactly 1 request. -/
theorem c3_error_classification :
    (∀ (env : Nat → Except String HttpResponse) (path : String) (r : HttpResponse),
      env 0 = .ok r → r.status = 401 →
      _request true env path 3 =
        ⟨.error (.ghError (.authenticationError "Invalid or expired token")), 1, []⟩) ∧
    (∀ (env : Nat → Except String HttpResponse) (path : String) (r : HttpResponse),
      env 0 = .ok r → r.status = 403 →
      headersGet r.headers "X-RateLimit-Remaining" "1" = "0" →
      _request true env path 3 =
        ⟨.error (.ghError (.rateLimitError
          ("Rate limit exceeded. Resets at " ++
            (epochToUTC (strToNat (headersGet r.headers "X-RateLimit-Reset" "0"))).isoformat)
          (epochToUTC (strToNat (headersGet r.headers "X-RateLimit-Reset" "0"))))), 1, []⟩) ∧
    (∀ (env : Nat → Except String HttpResponse) (path : String) (r : HttpResponse),
      env 0 = .ok r → r.status = 403 →
      headersGet r.headers "X-RateLimit-Remaining" "1" ≠ "0" →
      _request true env path 3 =
        ⟨.error (.ghError (.authenticationError
          "Access forbidden - check token permissions")), 1, []⟩) ∧
    (∀ (env : Nat → Except String HttpResponse) (path : String) (r : HttpResponse),
      env 0 = .ok r → r.status = 404 →
      _request true env path 3 =
        ⟨.error (.ghError (.notFoundError
          ("Repository not found or no access: " ++ path))), 1, []⟩) ∧
    epochToUTC (strToNat "1704067200") = ⟨2024, 1, 1, 0, 0, 0⟩ := by
  refine ⟨?_, ?_, ?_, ?_, by decide⟩
  · intro env path r h0 hst
    rw [request_open]
    simp [requestLoop, h0, hst]
  · intro env path r h0 hst hrem
    rw [request_open]
    simp [requestLoop, h0, hst, hrem]
  · intro env path r h0 hst hrem
    rw [request_open]
    simp [requestLoop, h0, hst, hrem]
  · intro env path r h0 hst
    rw [request_open]
    simp [requestLoop, h0, hst]

/-- Claim C3 witness: the rate-limit scenario with
`X-RateLimit-Reset: 1704067200` plus the 404 scenario, concretely. -/
theorem c3_error_classification_witness :
    _request true
      (fun _ => .ok ⟨403,
        [("X-RateLimit-Remaining", "0"), ("X-RateLimit-Reset", "1704067200")], "", ""⟩)
      "/repos/o/a/traffic/views" 3 =
      ⟨.error (.ghError (.rateLimitError
        ("Rate limit exceeded. Resets at " ++
          (epochToUTC (strToNat (headersGet
            [("X-RateLimit-Remaining", "0"), ("X-RateLimit-Reset", "1704067200")]
            "X-RateLimit-Reset" "0"))).isoformat)
        (epochToUTC (strToNat (headersGet
          [("X-RateLimit-Remaining", "0"), ("X-RateLimit-Reset", "1704067200")]
          "X-RateLimit-Reset" "0"))))), 1, []⟩ ∧
    _request true (fun _ => .ok ⟨404, [], "", ""⟩) "/repos/o/gone" 3 =
      ⟨.error (.ghError (.notFoundError
        ("Repository not found or no access: " ++ "/repos/o/gone"))), 1, []⟩ :=
  ⟨c3_error_classification.2.1
      (fun _ => .ok ⟨403,
        [("X-RateLimit-Remaining", "0"), ("X-RateLimit-Reset", "1704067200")], "", ""⟩)
      "/repos/o/a/traffic/views"
      ⟨403, [("X-RateLimit-Remaining", "0"), ("X-RateLimit-Reset", "1704067200")], "", ""⟩
      rfl rfl (by decide),
   c3_error_classification.2.2.2.1 (fun _ => .ok ⟨404, [], "", ""⟩) "/repos/o/gone"
      ⟨404, [], "", ""⟩ rfl rfl⟩

/-- Claim C10: calling any of the four endpoint operations on a client that
has not entered its scoped connection lifetime raises `RuntimeError` before
issuing any request, and that error is not a member of the `GitHubAPIError`
family. -/
theorem c10_uninitialized_client :
    ∀ (env : Nat → Except String HttpResponse) (owner repo : String) (per_page : Nat),
      get_views false env owner repo =
        ⟨.error (.runtimeError "Client not initialized. Use async context manager."), 0, []⟩ ∧
      get_clones false env owner repo =
        ⟨.error (.runtimeError "Client not initialized. Use async context manager."), 0, []⟩ ∧
      get_repo_stats false env owner repo =
        ⟨.error (.runtimeError "Client not initialized. Use async context manager."), 0, []⟩ ∧
      get_releases false env owner repo per_page =
        ⟨.error (.runtimeError "Client not initialized. Use async context manager."), 0, []⟩ ∧
      PyError.isGitHubAPIError
        (.runtimeError "Client not initialized. Use async context manager.") = false :=
  fun _ _ _ _ => ⟨rfl, rfl, rfl, rfl, rfl⟩

/-! ### Helper lemmas about the record builder -/

theorem anyKey_iff (m : List (String × TrafficRecord)) (k : String) :
    (m.any (fun p => p.1 == k)) = true ↔ k ∈ m.map Prod.fst := by
  simp [List.any_eq_true]

theorem keysOf_dictSet (m : List (String × TrafficRecord)) (k : String) (v : TrafficRecord) :
    (dictSet m k v).map Prod.fst =
      if k ∈ m.map Prod.fst then m.map Prod.fst else m.map Prod.fst ++ [k] := by
  unfold dictSet
  by_cases h : k ∈ m.map Prod.fst
  · rw [if_pos ((anyKey_iff m k).mpr h), if_pos h, List.map_map]
    apply List.map_congr_left
    intro p _
    by_cases hpk : p.1 = k
    · simp [hpk]
    · simp [hpk]
  · rw [if_neg (fun hc => h ((anyKey_iff m k).mp hc)), if_neg h, List.map_append]
    rfl

theorem mem_dictSet {m : List (String × TrafficRecord)} {k : String} {v : TrafficRecord}
    {p : String × TrafficRecord} (hp : p ∈ dictSet m k v) :
    (p ∈ m ∧ p.1 ≠ k) ∨ p = (k, v) := by
  unfold dictSet at hp
  by_cases h : (m.any (fun q => q.1 == k)) = true
  · rw [if_pos h, List.mem_map] at hp
    obtain ⟨q, hq, he⟩ := hp
    by_cases hqk : (q.1 == k) = true
    · rw [if_pos hqk] at he
      exact Or.inr he.symm
    · rw [if_neg hqk] at he
      refine Or.inl ⟨he ▸ hq, ?_⟩
      rw [← he]
      simpa using hqk
  · rw [if_neg h, List.mem_append] at hp
    rcases hp with hp | hp
    · refine Or.inl ⟨hp, fun hk => h ((anyKey_iff m k).mpr ?_)⟩
      exact hk ▸ List.mem_map_of_mem Prod.fst hp
    · rw [List.mem_singleton] at hp
      exact Or.inr hp

theorem keysOf_cloneStep (o n t : String) (s : RepoStats)
    (m : List (String × TrafficRecord)) (item : TrafficItem) :
    ((cloneStep o n t s m item).map Prod.fst) =
      if itemDate item ∈ m.map Prod.fst then m.map Prod.fst
      else m.map Prod.fst ++ [itemDate item] := by
  unfold cloneStep
  by_cases h : itemDate item ∈ m.map Prod.fst
  · rw [if_pos ((anyKey_iff m (itemDate item)).mpr h), if_pos h, List.map_map]
    apply List.map_congr_left
    intro p _
    by_cases hpk : p.1 = itemDate item
    · simp [hpk]
    · simp [hpk]
  · rw [if_neg (fun hc => h ((anyKey_iff m (itemDate item)).mp hc)), if_neg h, List.map_append]
    rfl

theorem mem_cloneStep {o n t : String} {s : RepoStats}
    {m : List (String × TrafficRecord)} {item : TrafficItem}
    {p : String × TrafficRecord} (hp : p ∈ cloneStep o n t s m item) :
    (p ∈ m ∧ p.1 ≠ itemDate item) ∨
    (∃ q ∈ m, q.1 = itemDate item ∧
      p = (q.1, setCloneFields q.2 item.count item.uniques)) ∨
    (itemDate item ∉ m.map Prod.fst ∧ p = (itemDate item, cloneRecord o n t s item)) := by
  unfold cloneStep at hp
  by_cases h : (m.any (fun q => q.1 == itemDate item)) = true
  · rw [if_pos h, List.mem_map] at hp
    obtain ⟨q, hq, he⟩ := hp
    by_cases hqk : (q.1 == itemDate item) = true
    · rw [if_pos hqk] at he
      exact Or.inr (Or.inl ⟨q, hq, beq_iff_eq.mp hqk, he.symm⟩)
    · rw [if_neg hqk] at he
      refine Or.inl ⟨he ▸ hq, ?_⟩
      rw [← he]
      simpa using hqk
  · rw [if_neg h, List.mem_append] at hp
    rcases hp with hp | hp
    · refine Or.inl ⟨hp, fun hk => h ((anyKey_iff m (itemDate item)).mpr ?_)⟩
      exact hk ▸ List.mem_map_of_mem Prod.fst hp
    · rw [List.mem_singleton] at hp
      exact Or.inr (Or.inr ⟨fun hc => h ((anyKey_iff m (itemDate item)).mpr hc), hp⟩)

/-- Invariant of the views loop: every dict entry is keyed by its record's
date, has view fields populated, clone fields absent, and carries the
repo-stats snapshot. -/
def viewProp (s : RepoStats) (p : String × TrafficRecord) : Prop :=
  p.2.record_date = p.1 ∧
  p.2.views_total.isSome = true ∧
  p.2.views_unique.isSome = true ∧
  p.2.clones_total = none ∧
  p.2.clones_unique = none ∧
  p.2.forks_count = some s.forks_count ∧
  p.2.stars_count = some s.stargazers_count

/-- Invariant of the clones loop, parameterised by the view dates `vd` and the
clone dates processed so far `pds`. -/
def cloneProp (s : RepoStats) (vd pds : List String) (p : String × TrafficRecord) : Prop :=
  p.2.record_date = p.1 ∧
  p.2.forks_count = some s.forks_count ∧
  p.2.stars_count = some s.stargazers_count ∧
  (p.2.views_total.isSome = true ↔ p.1 ∈ vd) ∧
  (p.2.views_unique.isSome = true ↔ p.1 ∈ vd) ∧
  (p.2.clones_total.isSome = true ↔ p.1 ∈ pds) ∧
  (p.2.clones_unique.isSome = true ↔ p.1 ∈ pds)

theorem views_fold (o n t : String) (s : RepoStats) :
    ∀ (items : List TrafficItem) (m : List (String × TrafficRecord)),
      (m.map Prod.fst).Nodup →
      (∀ p ∈ m, viewProp s p) →
      ((items.foldl (viewStep o n t s) m).map Prod.fst).Nodup ∧
      (∀ p ∈ items.foldl (viewStep o n t s) m, viewProp s p) ∧
      (∀ x, x ∈ (items.foldl (viewStep o n t s) m).map Prod.fst ↔
        x ∈ m.map Prod.fst ∨ x ∈ items.map itemDate) := by
  intro items
  induction items with
  | nil =>
    intro m h1 h2
    exact ⟨h1, h2, by simp⟩
  | cons item rest ih =>
    intro m h1 h2
    rw [List.foldl_cons]
    have hk := keysOf_dictSet m (itemDate item) (viewRecord o n t s item)
    have h1' : ((viewStep o n t s m item).map Prod.fst).Nodup := by
      rw [viewStep, hk]
      split
      · exact h1
      · next hnin => exact h1.append (List.nodup_singleton _) (List.disjoint_singleton.mpr hnin)
    have h2' : ∀ p ∈ viewStep o n t s m item, viewProp s p := by
      intro p hp
      rcases mem_dictSet hp with ⟨hpm, _⟩ | hpe
      · exact h2 p hpm
      · rw [hpe]
        simp [viewProp, viewRecord]
    have hkm : ∀ x, x ∈ (viewStep o n t s m item).map Prod.fst ↔
        x ∈ m.map Prod.fst ∨ x = itemDate item := by
      intro x
      rw [viewStep, hk]
      split
      · next hin =>
        constructor
        · exact Or.inl
        · rintro (hx | rfl)
          · exact hx
          · exact hin
      · next hnin => simp
    obtain ⟨ha, hb, hc⟩ := ih (viewStep o n t s m item) h1' h2'
    refine ⟨ha, hb, ?_⟩
    intro x
    rw [hc x, hkm x]
    simp [or_assoc]

theorem clones_fold (o n t : String) (s : RepoStats) (vd : List String) :
    ∀ (items : List TrafficItem) (pds : List String) (m : List (String × TrafficRecord)),
      (m.map Prod.fst).Nodup →
      (∀ x, x ∈ m.map Prod.fst ↔ x ∈ vd ∨ x ∈ pds) →
      (∀ p ∈ m, cloneProp s vd pds p) →
      ((items.foldl (cloneStep o n t s) m).map Prod.fst).Nodup ∧
      (∀ x, x ∈ (items.foldl (cloneStep o n t s) m).map Prod.fst ↔
        x ∈ vd ∨ x ∈ pds ++ items.map itemDate) ∧
      (∀ p ∈ items.foldl (cloneStep o n t s) m,
        cloneProp s vd (pds ++ items.map itemDate) p) := by
  intro items
  induction items with
  | nil =>
    intro pds m h1 h2 h3
    simp only [List.foldl_nil, List.map_nil, List.append_nil]
    exact ⟨h1, h2, h3⟩
  | cons item rest ih =>
    intro pds m h1 h2 h3
    rw [List.foldl_cons]
    have hk := keysOf_cloneStep o n t s m item
    have h1' : ((cloneStep o n t s m item).map Prod.fst).Nodup := by
      rw [hk]
      split
      · exact h1
      · next hnin => exact h1.append (List.nodup_singleton _) (List.disjoint_singleton.mpr hnin)
    have h2' : ∀ x, x ∈ (cloneStep o n t s m item).map Prod.fst ↔
        x ∈ vd ∨ x ∈ pds ++ [itemDate item] := by
      intro x
      rw [hk]
      split
      · next hin =>
        rw [h2 x]
        constructor
        · rintro (hx | hx)
          · exact Or.inl hx
          · exact Or.inr (List.mem_append_left _ hx)
        · rintro (hx | hx)
          · exact Or.inl hx
          · rcases List.mem_append.mp hx with hx | hx
            · exact Or.inr hx
            · rw [List.mem_singleton] at hx
              exact (h2 x).mp (hx ▸ hin)
      · next hnin =>
        rw [List.mem_append, h2 x, List.mem_singleton, List.mem_append, List.mem_singleton]
        tauto
    have h3' : ∀ p ∈ cloneStep o n t s m item,
        cloneProp s vd (pds ++ [itemDate item]) p := by
      intro p hp
      rcases mem_cloneStep hp with ⟨hpm, hpne⟩ | ⟨q, hq, hqd, hpe⟩ | ⟨hnin, hpe⟩
      · obtain ⟨c1, c2, c3, c4, c5, c6, c7⟩ := h3 p hpm
        have hmem : ∀ l : List String, (p.1 ∈ l ++ [itemDate item]) ↔ p.1 ∈ l := by
          intro l
          rw [List.mem_append, List.mem_singleton]
          exact ⟨fun h => h.resolve_right hpne, Or.inl⟩
        exact ⟨c1, c2, c3, c4, c5, by rw [hmem]; exact c6, by rw [hmem]; exact c7⟩
      · obtain ⟨c1, c2, c3, c4, c5, _, _⟩ := h3 q hq
        rw [hpe]
        refine ⟨c1, c2, c3, c4, c5, ?_, ?_⟩ <;>
          simp [setCloneFields, hqd]
      · have hdnv : itemDate item ∉ vd := fun hc => hnin ((h2 _).mpr (Or.inl hc))
        rw [hpe]
        refine ⟨rfl, rfl, rfl, ?_, ?_, ?_, ?_⟩ <;>
          simp [cloneRecord, hdnv]
    obtain ⟨ha, hb, hc⟩ := ih (pds ++ [itemDate item]) (cloneStep o n t s m item) h1' h2' h3'
    have hassoc : (pds ++ [itemDate item]) ++ rest.map itemDate =
        pds ++ (item :: rest).map itemDate := by
      simp
    refine ⟨ha, ?_, ?_⟩
    · intro x
      rw [hb x, ← hassoc]
    · intro p hp
      rw [← hassoc]
      exact hc p hp

/-! ### Claim theorems: collector -/

/-- Claim C4: for one repository and one collection run, the record builder
produces exactly one record per distinct date occurring in either response;
view fields are populated exactly for dates in the views response, clone
fields exactly for dates in the clones response, and every record carries the
same forks/stars snapshot.  In particular 2 view-days plus 1 overlapping and
1 non-overlapping clone-day yield exactly 3 records. -/
theorem c4_record_builder :
    (∀ (v c : TrafficData) (s : RepoStats) (owner name ts : String),
      ((collect_repo_stats (.ok v) (.ok c) (.ok s) owner name ts).map
        (fun r => r.record_date)).Nodup ∧
      (∀ d, d ∈ (collect_repo_stats (.ok v) (.ok c) (.ok s) owner name ts).map
          (fun r => r.record_date) ↔
        d ∈ v.items.map itemDate ∨ d ∈ c.items.map itemDate) ∧
      (∀ r ∈ collect_repo_stats (.ok v) (.ok c) (.ok s) owner name ts,
        (r.views_total.isSome = true ↔ r.record_date ∈ v.items.map itemDate) ∧
        (r.views_unique.isSome = true ↔ r.record_date ∈ v.items.map itemDate) ∧
        (r.clones_total.isSome = true ↔ r.record_date ∈ c.items.map itemDate) ∧
        (r.clones_unique.isSome = true ↔ r.record_date ∈ c.items.map itemDate) ∧
        r.forks_count = some s.forks_count ∧
        r.stars_count = some s.stargazers_count)) ∧
    collect_repo_stats
      (.ok ⟨12, 7, [⟨"2024-01-01T00:00:00Z", 5, 3⟩, ⟨"2024-01-02T00:00:00Z", 7, 4⟩]⟩)
      (.ok ⟨11, 9, [⟨"2024-01-02T00:00:00Z", 2, 1⟩, ⟨"2024-01-03T00:00:00Z", 9, 8⟩]⟩)
      (.ok ⟨10, 20, 1, 2⟩) "o" "a" "t" =
      [⟨"2024-01-01", "o", "a", none, none, some 5, some 3, some 10, some 20, "t"⟩,
       ⟨"2024-01-02", "o", "a", some 2, some 1, some 7, some 4, some 10, some 20, "t"⟩,
       ⟨"2024-01-03", "o", "a", some 9, some 8, none, none, some 10, some 20, "t"⟩] := by
  refine ⟨?_, by decide⟩
  intro v c s owner name ts
  obtain ⟨n1, p1, k1⟩ := views_fold owner name ts s v.items [] (by simp) (by simp)
  have hq2 : ∀ x, x ∈ (v.items.foldl (viewStep owner name ts s) []).map Prod.fst ↔
      x ∈ v.items.map itemDate ∨ x ∈ ([] : List String) := by
    intro x
    rw [k1 x]
    simp
  have hq3 : ∀ p ∈ v.items.foldl (viewStep owner name ts s) [],
      cloneProp s (v.items.map itemDate) [] p := by
    intro p hp
    obtain ⟨c1, c2, c3, c4, c5, c6, c7⟩ := p1 p hp
    have hpv : p.1 ∈ v.items.map itemDate := by
      have := (hq2 p.1).mp (List.mem_map_of_mem Prod.fst hp)
      simpa using this
    refine ⟨c1, c6, c7, ⟨fun _ => hpv, fun _ => c2⟩, ⟨fun _ => hpv, fun _ => c3⟩,
      ?_, ?_⟩
    · simp [c4]
    · simp [c5]
  obtain ⟨n2, k2, p2⟩ := clones_fold owner name ts s (v.items.map itemDate) c.items []
    (v.items.foldl (viewStep owner name ts s) []) n1 hq2 hq3
  simp only [List.nil_append] at k2 p2
  have hrecs : collect_repo_stats (.ok v) (.ok c) (.ok s) owner name ts =
      (c.items.foldl (cloneStep owner name ts s)
        (v.items.foldl (viewStep owner name ts s) [])).map (fun p => p.2) := rfl
  have hdates : (c.items.foldl (cloneStep owner name ts s)
      (v.items.foldl (viewStep owner name ts s) [])).map (fun p => p.2.record_date) =
      (c.items.foldl (cloneStep owner name ts s)
        (v.items.foldl (viewStep owner name ts s) [])).map Prod.fst :=
    List.map_congr_left (fun p hp => (p2 p hp).1)
  refine ⟨?_, ?_, ?_⟩
  · rw [hrecs, List.map_map]
    exact hdates ▸ n2
  · intro d
    rw [hrecs, List.map_map]
    have : d ∈ (c.items.foldl (cloneStep owner name ts s)
        (v.items.foldl (viewStep owner name ts s) [])).map (fun p => p.2.record_date) ↔
        d ∈ (c.items.foldl (cloneStep owner name ts s)
          (v.items.foldl (viewStep owner name ts s) [])).map Prod.fst := by
      rw [hdates]
    exact this.trans (k2 d)
  · intro r hr
    rw [hrecs, List.mem_map] at hr
    obtain ⟨p, hp, rfl⟩ := hr
    obtain ⟨c1, c2, c3, c4, c5, c6, c7⟩ := p2 p hp
    rw [c1]
    exact ⟨c4, c5, c6, c7, c2, c3⟩

/-- Claim C4 witness: the general statement instantiated on the concrete
2-view-day / 2-clone-day scenario, with the per-record facts read off for the
overlap record. -/
theorem c4_record_builder_witness :
    ((collect_repo_stats
      (.ok ⟨12, 7, [⟨"2024-01-01T00:00:00Z", 5, 3⟩, ⟨"2024-01-02T00:00:00Z", 7, 4⟩]⟩)
      (.ok ⟨11, 9, [⟨"2024-01-02T00:00:00Z", 2, 1⟩, ⟨"2024-01-03T00:00:00Z", 9, 8⟩]⟩)
      (.ok ⟨10, 20, 1, 2⟩) "o" "a" "t").map (fun r => r.record_date)).Nodup ∧
    ((⟨"2024-01-02", "o", "a", some 2, some 1, some 7, some 4, some 10, some 20, "t"⟩ :
        TrafficRecord).views_total.isSome = true ↔
      "2024-01-02" ∈ ([⟨"2024-01-01T00:00:00Z", 5, 3⟩,
        ⟨"2024-01-02T00:00:00Z", 7, 4⟩] : List TrafficItem).map itemDate) :=
  ⟨(c4_record_builder.1 ⟨12, 7, [⟨"2024-01-01T00:00:00Z", 5, 3⟩, ⟨"2024-01-02T00:00:00Z", 7, 4⟩]⟩
      ⟨11, 9, [⟨"2024-01-02T00:00:00Z", 2, 1⟩, ⟨"2024-01-03T00:00:00Z", 9, 8⟩]⟩
      ⟨10, 20, 1, 2⟩ "o" "a" "t").1,
   ((c4_record_builder.1 ⟨12, 7, [⟨"2024-01-01T00:00:00Z", 5, 3⟩, ⟨"2024-01-02T00:00:00Z", 7, 4⟩]⟩
      ⟨11, 9, [⟨"2024-01-02T00:00:00Z", 2, 1⟩, ⟨"2024-01-03T00:00:00Z", 9, 8⟩]⟩
      ⟨10, 20, 1, 2⟩ "o" "a" "t").2.2
      ⟨"2024-01-02", "o", "a", some 2, some 1, some 7, some 4, some 10, some 20, "t"⟩
      (by decide)).1⟩

/-- Claim C7: any error raised during one repository's fetches yields exactly
zero records for that repository, and removing such a repository from a batch
does not change what the other repositories contribute. -/
theorem c7_fetch_failure_isolation :
    (∀ f : RepoFetch, fetchFailed f → repoRecords f = []) ∧
    (∀ (pre post : List RepoFetch) (f : RepoFetch), fetchFailed f →
      collect_all_records (pre ++ f :: post) =
        collect_all_records pre ++ collect_all_records post) := by
  have h1 : ∀ f : RepoFetch, fetchFailed f → repoRecords f = [] := by
    intro f hf
    rcases f with ⟨fv, fc, fs, o, n, t⟩
    rcases fv with e | v <;> rcases fc with e2 | c <;> rcases fs with e3 | s <;>
      first
        | rfl
        | (exfalso
           rcases hf with ⟨e, he⟩ | ⟨e, he⟩ | ⟨e, he⟩ <;> exact Except.noConfusion he)
  refine ⟨h1, ?_⟩
  intro pre post f hf
  simp [collect_all_records, h1 f hf]

/-- Claim C7 witness: a concrete three-repository batch whose middle
repository's views fetch fails. -/
theorem c7_fetch_failure_isolation_witness :
    repoRecords ⟨.error (.apiError "boom"), .ok ⟨0, 0, []⟩, .ok ⟨1, 2, 3, 4⟩,
      "o", "a", "t"⟩ = [] ∧
    collect_all_records
      ([⟨.ok ⟨0, 0, []⟩, .ok ⟨0, 0, []⟩, .ok ⟨1, 2, 3, 4⟩, "o", "b", "t"⟩] ++
        ⟨.error (.apiError "boom"), .ok ⟨0, 0, []⟩, .ok ⟨1, 2, 3, 4⟩, "o", "a", "t"⟩ ::
        [⟨.ok ⟨0, 0, []⟩, .ok ⟨0, 0, []⟩, .ok ⟨5, 6, 7, 8⟩, "o", "c", "t"⟩]) =
      collect_all_records
        [⟨.ok ⟨0, 0, []⟩, .ok ⟨0, 0, []⟩, .ok ⟨1, 2, 3, 4⟩, "o", "b", "t"⟩] ++
      collect_all_records
        [⟨.ok ⟨0, 0, []⟩, .ok ⟨0, 0, []⟩, .ok ⟨5, 6, 7, 8⟩, "o", "c", "t"⟩] :=
  ⟨c7_fetch_failure_isolation.1 _ (Or.inl ⟨.apiError "boom", rfl⟩),
   c7_fetch_failure_isolation.2 _ _ _ (Or.inl ⟨.apiError "boom", rfl⟩)⟩

end GhStats
